import Mathlib

/-!
Verification of the NFL parlay generator core against its specification.

The Python source is shallowly embedded: floats become exact rationals
(reals where transcendental library calls appear), `round` becomes
round-half-to-even at the given number of decimals, and fallible
functions return `Option`.  Definitions follow `src/NFL_pre.py` and
`src/advanced_analytics.py`.
-/

namespace NFLParlay

/-- Model of Python `round` to an integer: nearest integer, ties to even. -/
def pyRoundInt (q : ℚ) : ℤ :=
  let f := ⌊q⌋
  if q - f < 1/2 then f
  else if 1/2 < q - f then f + 1
  else if 2 ∣ f then f else f + 1

/-- Model of Python `round(x, d)`: round to `d` decimal places, ties to even. -/
def pyRound (d : ℕ) (q : ℚ) : ℚ :=
  (pyRoundInt (q * 10 ^ d) : ℚ) / 10 ^ d

/-- Player position enumeration (`Position` in `NFL_pre.py`). -/
inductive Position where
  | QB | RB | WR | TE
deriving DecidableEq, Repr

/-- Bet type enumeration (`BetType` in `NFL_pre.py`). -/
inductive BetType where
  | OVER | UNDER
deriving DecidableEq, Repr

/-- Game script enumeration (`GameScript` in `NFL_pre.py`). -/
inductive GameScript where
  | TRAILING | LEADING | EXPLOSIVE | NEUTRAL
deriving DecidableEq, Repr

/-- Game context (`GameContext` in `NFL_pre.py`); betting lines as rationals. -/
structure GameContext where
  team : String
  opponent : String
  spread : ℚ
  total : ℚ
  implied_team_total : ℚ
  opponent_rank : ℤ
deriving DecidableEq, Repr

/-- Per-stat projection result (`Projection` dataclass in `NFL_pre.py`). -/
structure Projection where
  player_name : String
  position : Position
  stat_type : String
  projected_value : ℚ
  market_line : ℚ
  edge : ℚ
  recommendation : BetType
  confidence : ℚ
deriving DecidableEq, Repr

/-- Single leg of a parlay (`ParlayLeg` dataclass in `NFL_pre.py`). -/
structure ParlayLeg where
  player_name : String
  stat_type : String
  line : ℚ
  direction : BetType
  edge : ℚ
deriving DecidableEq, Repr

/-- Correlated parlay recommendation (`CorrelatedParlay` dataclass in `NFL_pre.py`). -/
structure CorrelatedParlay where
  game_script : GameScript
  legs : List ParlayLeg
  combined_confidence : ℚ
  correlation_strength : String
deriving DecidableEq, Repr

namespace Config

/-- `Config.TRAILING_SCRIPT_SPREAD = 6.5`. -/
def TRAILING_SCRIPT_SPREAD : ℚ := 13/2

/-- `Config.LEADING_SCRIPT_SPREAD = -6.5`. -/
def LEADING_SCRIPT_SPREAD : ℚ := -(13/2)

/-- `Config.EXPLOSIVE_TOTAL_THRESHOLD = 49.5`. -/
def EXPLOSIVE_TOTAL_THRESHOLD : ℚ := 99/2

/-- `Config.MIN_EDGE_FOR_CONFIDENCE = 2.0`. -/
def MIN_EDGE_FOR_CONFIDENCE : ℚ := 2

/-- `Config.MAX_EDGE_FOR_CONFIDENCE = 15.0`. -/
def MAX_EDGE_FOR_CONFIDENCE : ℚ := 15

end Config

/-- `PredictionEngine._calculate_confidence`: confidence from the absolute
edge percentage, ramping 35 to 50 below the minimum edge, 50 to 95 up to the
maximum edge, flat 95 above it. -/
def calculateConfidence (edgeMagnitude : ℚ) : ℚ :=
  if edgeMagnitude < Config.MIN_EDGE_FOR_CONFIDENCE then
    35 + (edgeMagnitude / Config.MIN_EDGE_FOR_CONFIDENCE) * 15
  else if Config.MAX_EDGE_FOR_CONFIDENCE < edgeMagnitude then
    95
  else
    50 + (edgeMagnitude - Config.MIN_EDGE_FOR_CONFIDENCE) /
      (Config.MAX_EDGE_FOR_CONFIDENCE - Config.MIN_EDGE_FOR_CONFIDENCE) * 45

/-- `PredictionEngine._create_projection`: edge, recommendation and confidence
for one stat; `projected_value`, `edge` and `confidence` are stored rounded to
1, 2 and 1 decimal places respectively, as in the source. -/
def createProjection (player_name : String) (position : Position)
    (stat_type : String) (projected line : ℚ) : Projection :=
  let edge : ℚ := ((projected - line) / line) * 100
  let recommendation := if line < projected then BetType.OVER else BetType.UNDER
  let confidence := calculateConfidence |edge|
  { player_name := player_name
    position := position
    stat_type := stat_type
    projected_value := pyRound 1 projected
    market_line := line
    edge := pyRound 2 edge
    recommendation := recommendation
    confidence := pyRound 1 confidence }

/-- `CorrelationEngine.determine_game_script`: classify the game script from
the spread and the total. -/
def determineGameScript (ctx : GameContext) : GameScript :=
  if Config.TRAILING_SCRIPT_SPREAD < ctx.spread then GameScript.TRAILING
  else if ctx.spread < Config.LEADING_SCRIPT_SPREAD then GameScript.LEADING
  else if Config.EXPLOSIVE_TOTAL_THRESHOLD < ctx.total then GameScript.EXPLOSIVE
  else GameScript.NEUTRAL

/-- `CorrelationEngine._find_projection`: first projection matching the
position and stat type. -/
def findProjection (projections : List Projection) (position : Position)
    (stat_type : String) : Option Projection :=
  projections.find? fun p => decide (p.position = position ∧ p.stat_type = stat_type)

/-- Python `max(xs, key=lambda p: abs(p.edge))` on a nonempty list: the first
element of maximal absolute edge (later elements replace only on a strictly
larger key). -/
def maxByAbsEdge (x : Projection) (xs : List Projection) : Projection :=
  xs.foldl (fun best p => if |best.edge| < |p.edge| then p else best) x

/-- `CorrelationEngine._find_best_projection`: among projections matching one
of the positions and the stat type, prefer those recommending the preferred
direction, then take the one of maximal absolute edge. -/
def findBestProjection (projections : List Projection) (positions : List Position)
    (stat_type : String) (preferred : BetType) : Option Projection :=
  let candidates := projections.filter fun p =>
    decide (p.position ∈ positions ∧ p.stat_type = stat_type)
  let matching := candidates.filter fun p => decide (p.recommendation = preferred)
  match matching with
  | m :: ms => some (maxByAbsEdge m ms)
  | [] =>
    match candidates with
    | c :: cs => some (maxByAbsEdge c cs)
    | [] => none

/-- `CorrelationEngine._calculate_parlay_confidence`: 50 plus the average leg
edge doubled (capped at +30), plus 5 per positive-edge leg, capped at 95. -/
def calculateParlayConfidence (legs : List ParlayLeg) : ℚ :=
  if legs = [] then 0
  else
    let avg_edge := (legs.map (fun leg => leg.edge)).sum / legs.length
    let base := 50 + min (avg_edge * 2) 30
    let bonus := (legs.countP fun leg => decide (0 < leg.edge)) * 5
    min (base + bonus) 95

/-- Leg built from a projection: keep the projection's edge when its
recommendation matches the leg direction `OVER`, else negate it. -/
def overLeg (p : Projection) (stat_type : String) : ParlayLeg :=
  { player_name := p.player_name
    stat_type := stat_type
    line := p.market_line
    direction := BetType.OVER
    edge := if p.recommendation = BetType.OVER then p.edge else -p.edge }

/-- Leg built from a projection for direction `UNDER`: negate the projection's
edge when its recommendation is `OVER`, else keep it. -/
def underLeg (p : Projection) (stat_type : String) : ParlayLeg :=
  { player_name := p.player_name
    stat_type := stat_type
    line := p.market_line
    direction := BetType.UNDER
    edge := if p.recommendation = BetType.OVER then -p.edge else p.edge }

/-- `CorrelationEngine._build_trailing_parlay`: QB pass attempts over, WR/TE
receptions over, RB rush yards under; emitted when at least two legs exist,
labelled Strong exactly on three legs. -/
def buildTrailingParlay (projections : List Projection) : Option CorrelatedParlay :=
  let legs : List ParlayLeg :=
    ((findProjection projections Position.QB "Pass Attempts").map
      (fun qb => overLeg qb "Pass Attempts")).toList ++
    ((findBestProjection projections [Position.WR, Position.TE] "Receptions"
        BetType.OVER).map (fun wr => overLeg wr "Receptions")).toList ++
    ((findProjection projections Position.RB "Rush Yards").map
      (fun rb => underLeg rb "Rush Yards")).toList
  if 2 ≤ legs.length then
    some { game_script := GameScript.TRAILING
           legs := legs
           combined_confidence := calculateParlayConfidence legs
           correlation_strength := if legs.length = 3 then "Strong" else "Moderate" }
  else none

/-- `CorrelationEngine._build_leading_parlay`: RB rush attempts over, RB rush
yards over, QB pass attempts under; emitted when at least two legs exist,
labelled Strong exactly on three legs. -/
def buildLeadingParlay (projections : List Projection) : Option CorrelatedParlay :=
  let legs : List ParlayLeg :=
    ((findProjection projections Position.RB "Rush Attempts").map
      (fun rb => overLeg rb "Rush Attempts")).toList ++
    ((findProjection projections Position.RB "Rush Yards").map
      (fun rb => overLeg rb "Rush Yards")).toList ++
    ((findProjection projections Position.QB "Pass Attempts").map
      (fun qb => underLeg qb "Pass Attempts")).toList
  if 2 ≤ legs.length then
    some { game_script := GameScript.LEADING
           legs := legs
           combined_confidence := calculateParlayConfidence legs
           correlation_strength := if legs.length = 3 then "Strong" else "Moderate" }
  else none

/-- `CorrelationEngine._build_explosive_parlay`: QB passing yards over and best
WR/TE receiving yards over; emitted when at least two legs exist, always
labelled Strong. -/
def buildExplosiveParlay (projections : List Projection) : Option CorrelatedParlay :=
  let legs : List ParlayLeg :=
    ((findProjection projections Position.QB "Passing Yards").map
      (fun qb => overLeg qb "Passing Yards")).toList ++
    ((findBestProjection projections [Position.WR, Position.TE] "Rec Yards"
        BetType.OVER).map (fun wr => overLeg wr "Rec Yards")).toList
  if 2 ≤ legs.length then
    some { game_script := GameScript.EXPLOSIVE
           legs := legs
           combined_confidence := calculateParlayConfidence legs
           correlation_strength := "Strong" }
  else none

/-- `CorrelationEngine.find_correlated_parlays`: build the parlay matching the
game script, then additionally the explosive parlay when the script is not
explosive but the total exceeds 47. -/
def findCorrelatedParlays (ctx : GameContext) (projections : List Projection) :
    List CorrelatedParlay :=
  let game_script := determineGameScript ctx
  let primary : List CorrelatedParlay :=
    match game_script with
    | GameScript.TRAILING => (buildTrailingParlay projections).toList
    | GameScript.LEADING => (buildLeadingParlay projections).toList
    | GameScript.EXPLOSIVE => (buildExplosiveParlay projections).toList
    | GameScript.NEUTRAL => []
  primary ++
    (if game_script ≠ GameScript.EXPLOSIVE ∧ 47 < ctx.total then
      (buildExplosiveParlay projections).toList
    else [])

/-- `KellyCriterion.calculate_kelly_fraction`: the guard clauses that raise
`ValueError` in Python are modelled as `none`. -/
def calculateKellyFraction (true_probability decimal_odds fractional_kelly : ℚ) :
    Option ℚ :=
  if ¬(0 < true_probability ∧ true_probability < 1) then none
  else if decimal_odds ≤ 1 then none
  else
    let b := decimal_odds - 1
    let p := true_probability
    let q := 1 - p
    let kelly_full := (b * p - q) / b
    if kelly_full ≤ 0 then some 0
    else some (min (kelly_full * fractional_kelly) (1/5))

end NFLParlay

namespace Analytics

/-- Significant correlated prop pair (`CorrelatedPair` dataclass in
`advanced_analytics.py`). -/
structure CorrelatedPair where
  prop1 : String
  prop2 : String
  correlation : ℝ
  covariance : ℝ
  p_value : ℝ
  sample_size : ℕ

/-- Unordered index pairs in iteration order: Python's
`for i, prop1 in enumerate(props): for prop2 in props[i+1:]`. -/
def pairsOf {α : Type} : List α → List (α × α)
  | [] => []
  | x :: xs => (xs.map fun y => (x, y)) ++ pairsOf xs

/-- Fisher z-transform two-tailed p-value as computed in
`PropCorrelationEngine.find_significant_pairs`; `cdf` stands for the standard
normal CDF supplied by `scipy.stats.norm.cdf`. -/
noncomputable def fisherPValue (cdf : ℝ → ℝ) (r : ℝ) (n : ℕ) : ℝ :=
  let z := (1/2) * Real.log ((1 + r) / (1 - r))
  let se := 1 / Real.sqrt ((n : ℝ) - 3)
  2 * (1 - cdf (|z| / se))

open Classical in
/-- Loop body of `PropCorrelationEngine.find_significant_pairs` for one
candidate pair: skip it when the absolute correlation is below
`min_correlation`, otherwise keep it exactly when the Fisher p-value is below
the significance level.  The sample size entering the test and stored on the
pair is `min_sample_size` (the source's
`n = self.min_sample_size  # Conservative estimate`). -/
noncomputable def significantPairTest (cdf : ℝ → ℝ) (min_sample_size : ℕ)
    (significance_level : ℝ) (corr cov : String → String → ℝ)
    (min_correlation : ℝ) (pq : String × String) : Option CorrelatedPair :=
  let r := corr pq.1 pq.2
  if |r| < min_correlation then none
  else
    let p_value := fisherPValue cdf r min_sample_size
    if p_value < significance_level then
      some { prop1 := pq.1
             prop2 := pq.2
             correlation := r
             covariance := cov pq.1 pq.2
             p_value := p_value
             sample_size := min_sample_size }
    else none

/-- `PropCorrelationEngine.find_significant_pairs`: run the significance test
over every unique pair in iteration order, then sort the kept pairs by
absolute correlation descending; the correlation and covariance matrices are
lookup functions. -/
noncomputable def findSignificantPairs (cdf : ℝ → ℝ) (min_sample_size : ℕ)
    (significance_level : ℝ) (corr cov : String → String → ℝ)
    (props : List String) (min_correlation : ℝ) : List CorrelatedPair :=
  ((pairsOf props).filterMap
    (significantPairTest cdf min_sample_size significance_level corr cov
      min_correlation)).mergeSort
    fun a b => decide (|b.correlation| ≤ |a.correlation|)

/-- Parlay simulation report (`MonteCarloSimulator.simulate_parlay` result). -/
structure ParlayStats where
  true_probability : ℚ
  independent_probability : ℚ
  correlation_advantage : ℚ
  individual_probabilities : List ℚ
deriving DecidableEq, Repr

/-- Number of simulated draws whose value for leg `j` strictly exceeds the
line for leg `j` (one entry of `np.mean(simulated > lines, axis=0)` before
dividing by the draw count). -/
def overCount (sims : List (List ℚ)) (lines : List ℚ) (j : ℕ) : ℕ :=
  sims.countP fun draw => decide (lines.getD j 0 < draw.getD j 0)

/-- `MonteCarloSimulator.simulate_parlay`, downstream of the sampled matrix:
`sims` is the simulated draw matrix (one row per draw, one column per leg)
returned by `simulate_correlated_props`, `lines` the per-leg lines. -/
def simulateParlayStats (sims : List (List ℚ)) (lines : List ℚ) : ParlayStats :=
  let n := sims.length
  let all_legs_hit : ℕ :=
    sims.countP fun draw => (draw.zip lines).all fun vl => decide (vl.2 < vl.1)
  let parlay_probability : ℚ := (all_legs_hit : ℚ) / n
  let individual_probs : List ℚ :=
    (List.range lines.length).map fun j => (overCount sims lines j : ℚ) / n
  let independent_prob : ℚ := individual_probs.prod
  { true_probability := parlay_probability
    independent_probability := independent_prob
    correlation_advantage := parlay_probability - independent_prob
    individual_probabilities := individual_probs }

/-- Marginal probability that leg `j` goes over, stated independently of the
code's `countP` form: fraction of draws whose `j`-th value exceeds the `j`-th
line. -/
def marginalOverProb (sims : List (List ℚ)) (lines : List ℚ) (j : ℕ) : ℚ :=
  (((sims.filter fun draw => decide (lines.getD j 0 < draw.getD j 0)).length : ℚ)) /
    sims.length

/-- Column model of a pandas DataFrame: named columns of integer cells. -/
abbrev Frame : Type := List (String × List ℤ)

/-- Row count of a frame (`len(df)`). -/
def frameLen (f : Frame) : ℕ :=
  match f with
  | [] => 0
  | c :: _ => c.2.length

/-- Python `df[name] = values`: replace the column if present, else append it. -/
def setColumn (f : Frame) (name : String) (vals : List ℤ) : Frame :=
  if (f.any fun c => c.1 = name) then
    f.map fun c => if c.1 = name then (name, vals) else c
  else f ++ [(name, vals)]

/-- The first two statements of `AdversarialValidator.validate`:
`train_features['is_test'] = 0` and `test_features['is_test'] = 1`, executed
in place on the caller-supplied frames (a scalar assignment broadcasts over
the frame's rows). -/
def validateLabelAssignments (train test : Frame) : Frame × Frame :=
  (setColumn train "is_test" (List.replicate (frameLen train) 0),
   setColumn test "is_test" (List.replicate (frameLen test) 1))

/-- `np.digitize(p, np.linspace(0, 1, n_bins + 1)) - 1`: the number of bin
edges `k / n_bins` (for `k = 0 .. n_bins`) not exceeding `p`, minus one. -/
def digitizeIdx (n_bins : ℕ) (p : ℚ) : ℤ :=
  ((List.range (n_bins + 1)).countP fun k : ℕ =>
    decide ((k : ℚ) / (n_bins : ℚ) ≤ p)) - 1

/-- `ModelEvaluator.calibration_curve`: per non-empty bin `i` in
`range(n_bins)`, the mean predicted probability and the mean observed
outcome. -/
def calibrationCurve (true_outcomes predicted_probs : List ℚ) (n_bins : ℕ) :
    List ℚ × List ℚ :=
  let data := predicted_probs.zip true_outcomes
  (List.range n_bins).foldl
    (fun acc i =>
      let mask := data.filter fun d => decide (digitizeIdx n_bins d.1 = (i : ℤ))
      if 0 < mask.length then
        (acc.1 ++ [(mask.map fun d => d.1).sum / mask.length],
         acc.2 ++ [(mask.map fun d => d.2).sum / mask.length])
      else acc)
    ([], [])

/-- `ModelEvaluator.expected_calibration_error`: size-weighted sum of
`|mean observed - mean predicted|` over the bins `range(n_bins)`, with the
weight denominator the full sample count. -/
def expectedCalibrationError (true_outcomes predicted_probs : List ℚ)
    (n_bins : ℕ) : ℚ :=
  let data := predicted_probs.zip true_outcomes
  let n_total := predicted_probs.length
  ((List.range n_bins).map fun i =>
    let mask := data.filter fun d => decide (digitizeIdx n_bins d.1 = (i : ℤ))
    if 0 < mask.length then
      ((mask.length : ℚ) / (n_total : ℚ)) *
        |(mask.map fun d => d.2).sum / mask.length -
          (mask.map fun d => d.1).sum / mask.length|
    else 0).sum

end Analytics

open NFLParlay Analytics

section ConfidenceLemmas

lemma calculateConfidence_lower {e : ℚ} (he : 0 ≤ e) : 35 ≤ calculateConfidence e := by
  unfold calculateConfidence Config.MIN_EDGE_FOR_CONFIDENCE Config.MAX_EDGE_FOR_CONFIDENCE
  split_ifs with h1 h2 <;> linarith

lemma calculateConfidence_upper {e : ℚ} (he : 0 ≤ e) : calculateConfidence e ≤ 95 := by
  unfold calculateConfidence Config.MIN_EDGE_FOR_CONFIDENCE Config.MAX_EDGE_FOR_CONFIDENCE
  split_ifs with h1 h2 <;> linarith

lemma calculateConfidence_mono {e1 e2 : ℚ} (he : 0 ≤ e1) (h12 : e1 ≤ e2) :
    calculateConfidence e1 ≤ calculateConfidence e2 := by
  unfold calculateConfidence Config.MIN_EDGE_FOR_CONFIDENCE Config.MAX_EDGE_FOR_CONFIDENCE
  split_ifs with h1 h2 h3 h4 h5 <;> linarith

end ConfidenceLemmas

/-- C2: for every edge magnitude `e ≥ 0` the per-stat confidence equals
`35 + (e/2)·15` below 2, `50 + ((e−2)/13)·45` between 2 and 15, and 95 at or
above 15; it is non-decreasing in `e` and always lies within `[35, 95]`. -/
theorem calculateConfidence_spec (e : ℚ) (he : 0 ≤ e) :
    (e < 2 → calculateConfidence e = 35 + (e / 2) * 15)
    ∧ (2 ≤ e → e ≤ 15 → calculateConfidence e = 50 + ((e - 2) / 13) * 45)
    ∧ (15 ≤ e → calculateConfidence e = 95)
    ∧ 35 ≤ calculateConfidence e ∧ calculateConfidence e ≤ 95
    ∧ (∀ e2, e ≤ e2 → calculateConfidence e ≤ calculateConfidence e2) := by
  refine ⟨fun h => ?_, fun h2 h15 => ?_, fun h15 => ?_,
    calculateConfidence_lower he, calculateConfidence_upper he,
    fun e2 h12 => calculateConfidence_mono he h12⟩
  · unfold calculateConfidence Config.MIN_EDGE_FOR_CONFIDENCE
    rw [if_pos h]
  · unfold calculateConfidence Config.MIN_EDGE_FOR_CONFIDENCE
      Config.MAX_EDGE_FOR_CONFIDENCE
    rw [if_neg (by linarith), if_neg (by linarith)]
    norm_num
  · unfold calculateConfidence Config.MIN_EDGE_FOR_CONFIDENCE
      Config.MAX_EDGE_FOR_CONFIDENCE
    split_ifs with h1 h2 <;> [linarith; rfl; (norm_num; linarith)]

/-- Witness for C2 at the concrete edge magnitude 3. -/
theorem calculateConfidence_spec_witness :
    (0 : ℚ) ≤ 3 ∧ calculateConfidence 3 = 50 + ((3 - 2) / 13) * 45 :=
  ⟨by norm_num, (calculateConfidence_spec 3 (by norm_num)).2.1 (by norm_num) (by norm_num)⟩

/-- C3: the game-script classification returns Trailing when spread > 6.5,
Leading when spread < −6.5, otherwise Explosive when total > 49.5, otherwise
Neutral; in particular spread 8 gives Trailing, spread −8 gives Leading,
spread 0 with total 52 gives Explosive, spread 0 with total 44 gives
Neutral. -/
theorem determineGameScript_spec :
    (∀ ctx : GameContext,
      determineGameScript ctx =
        if (6.5 : ℚ) < ctx.spread then GameScript.TRAILING
        else if ctx.spread < (-6.5 : ℚ) then GameScript.LEADING
        else if (49.5 : ℚ) < ctx.total then GameScript.EXPLOSIVE
        else GameScript.NEUTRAL)
    ∧ (∀ ctx : GameContext, ctx.spread = 8 →
        determineGameScript ctx = GameScript.TRAILING)
    ∧ (∀ ctx : GameContext, ctx.spread = -8 →
        determineGameScript ctx = GameScript.LEADING)
    ∧ (∀ ctx : GameContext, ctx.spread = 0 → ctx.total = 52 →
        determineGameScript ctx = GameScript.EXPLOSIVE)
    ∧ (∀ ctx : GameContext, ctx.spread = 0 → ctx.total = 44 →
        determineGameScript ctx = GameScript.NEUTRAL) := by
  have h65 : (6.5 : ℚ) = Config.TRAILING_SCRIPT_SPREAD := by
    norm_num [Config.TRAILING_SCRIPT_SPREAD]
  have h65n : (-6.5 : ℚ) = Config.LEADING_SCRIPT_SPREAD := by
    norm_num [Config.LEADING_SCRIPT_SPREAD]
  have h495 : (49.5 : ℚ) = Config.EXPLOSIVE_TOTAL_THRESHOLD := by
    norm_num [Config.EXPLOSIVE_TOTAL_THRESHOLD]
  refine ⟨fun ctx => ?_, fun ctx h => ?_, fun ctx h => ?_,
    fun ctx hs ht => ?_, fun ctx hs ht => ?_⟩ <;>
    unfold determineGameScript
  · rw [← h65, ← h65n, ← h495]
  · rw [← h65, h, if_pos (by norm_num)]
  · rw [← h65, ← h65n, h, if_neg (by norm_num), if_pos (by norm_num)]
  · rw [← h65, ← h65n, ← h495, hs, ht, if_neg (by norm_num),
      if_neg (by norm_num), if_pos (by norm_num)]
  · rw [← h65, ← h65n, ← h495, hs, ht, if_neg (by norm_num),
      if_neg (by norm_num), if_neg (by norm_num)]

/-- Witness for C3 at a concrete game context with spread 8. -/
theorem determineGameScript_spec_witness :
    determineGameScript
      { team := "Chiefs", opponent := "Bills", spread := 8, total := 44,
        implied_team_total := 18, opponent_rank := 10 } = GameScript.TRAILING :=
  determineGameScript_spec.2.1 _ rfl

/-- C1 counterexample: at projected 1 and line 3 the stored edge is the exact
edge −200/3 rounded to two decimals, −66.67, which differs from the exact
value. -/
theorem createProjection_edge_not_exact :
    (createProjection "Justin Jefferson" Position.WR "Rec Yards" 1 3).edge ≠
      ((1 - 3) / 3) * 100 := by
  have hval : (((1 : ℚ) - 3) / 3) * 100 * 10 ^ 2 = -20000/3 := by norm_num
  have hfloor : ⌊(-20000/3 : ℚ)⌋ = -6667 := by
    rw [Int.floor_eq_iff]
    norm_num
  simp only [createProjection]
  unfold pyRound pyRoundInt
  rw [hval, hfloor]
  norm_num

/-- C1 amended: the stored edge equals `(projected − line)/line × 100` rounded
to two decimal places (nearest, ties to even), and the recommendation is Over
exactly when projected exceeds the line. -/
theorem createProjection_spec (name : String) (pos : Position) (st : String)
    (projected line : ℚ) (h : line ≠ 0) :
    (createProjection name pos st projected line).edge =
      pyRound 2 (((projected - line) / line) * 100)
    ∧ ((createProjection name pos st projected line).recommendation = BetType.OVER
        ↔ line < projected) := by
  refine ⟨rfl, ?_⟩
  unfold createProjection
  dsimp only
  split_ifs with hlt <;> simp [hlt]

/-- Witness for C1 at projected 1, line 3. -/
theorem createProjection_spec_witness :
    (3 : ℚ) ≠ 0 ∧
      (createProjection "Justin Jefferson" Position.WR "Receptions" 1 3).edge =
        pyRound 2 (((1 - 3) / 3) * 100) :=
  ⟨by norm_num,
    (createProjection_spec "Justin Jefferson" Position.WR "Receptions" 1 3
      (by norm_num)).1⟩

/-- C7: with `b = d − 1` and `full = (b·p − (1−p))/b`, the Kelly fraction is 0
when `full ≤ 0` and otherwise `full` times the fractional-Kelly multiplier
capped at 0.20; `kellyFraction(0.50, 1.91)` is 0 and
`kellyFraction(0.60, 1.91)` is strictly positive and at most 0.20. -/
theorem calculateKellyFraction_spec :
    (∀ p d f : ℚ, 0 < p → p < 1 → 1 < d →
      (((d - 1) * p - (1 - p)) / (d - 1) ≤ 0 →
        calculateKellyFraction p d f = some 0)
      ∧ (0 < ((d - 1) * p - (1 - p)) / (d - 1) →
        calculateKellyFraction p d f =
          some (min ((((d - 1) * p - (1 - p)) / (d - 1)) * f) (1/5))))
    ∧ calculateKellyFraction (1/2) (191/100) (1/4) = some 0
    ∧ (∃ q, calculateKellyFraction (3/5) (191/100) (1/4) = some q ∧
        0 < q ∧ q ≤ 1/5) := by
  refine ⟨fun p d f hp hp1 hd => ⟨fun hfull => ?_, fun hfull => ?_⟩,
    by norm_num [calculateKellyFraction],
    ⟨73/1820, by norm_num [calculateKellyFraction], by norm_num, by norm_num⟩⟩
  · unfold calculateKellyFraction
    rw [if_neg (not_not_intro ⟨hp, hp1⟩), if_neg (not_le.mpr hd)]
    exact if_pos hfull
  · unfold calculateKellyFraction
    rw [if_neg (not_not_intro ⟨hp, hp1⟩), if_neg (not_le.mpr hd)]
    exact if_neg (not_le.mpr hfull)

/-- C9 (code bug): `AdversarialValidator.validate` assigns the label columns
`train_features['is_test'] = 0` and `test_features['is_test'] = 1` in place on
the caller-supplied frames, so the arguments are changed when the call
returns; evaluated at the frames `{'x': [1, 2]}` and `{'x': [3]}`. -/
theorem validate_mutates_inputs :
    validateLabelAssignments [("x", [1, 2])] [("x", [3])] =
      ([("x", [1, 2]), ("is_test", [0, 0])], [("x", [3]), ("is_test", [1])]) ∧
    (validateLabelAssignments [("x", [1, 2])] [("x", [3])]).1 ≠ [("x", [1, 2])] ∧
    (validateLabelAssignments [("x", [1, 2])] [("x", [3])]).2 ≠ [("x", [3])] := by
  decide

/-- C10 (code bug): a prediction exactly equal to 1.0 is digitized to bin
index `n_bins`, which the aggregation loops over `range(n_bins)` never visit:
with the single prediction 1.0 and observed outcome 0, the calibration curve
is empty and the expected calibration error is 0 even though the prediction is
maximally miscalibrated. -/
theorem calibration_drops_probability_one :
    digitizeIdx 10 1 = 10 ∧
    calibrationCurve [0] [1] 10 = ([], []) ∧
    expectedCalibrationError [0] [1] 10 = 0 := by
  have h10 : digitizeIdx 10 1 = 10 := by
    norm_num [digitizeIdx, List.range_succ, List.countP_append, List.countP_cons]
  refine ⟨h10, ?_, ?_⟩
  · norm_num [calibrationCurve, List.range_succ, List.foldl_append, h10]
  · norm_num [expectedCalibrationError, List.range_succ, h10]

/-- Trailing-scenario game context: spread 8, total 44. -/
def trailingCtx : GameContext :=
  { team := "Jaguars", opponent := "Titans", spread := 8, total := 44,
    implied_team_total := 18, opponent_rank := 20 }

/-- Trailing-scenario QB projection: projected pass attempts exactly on the
line, zero edge. -/
def trailingQB : Projection :=
  { player_name := "Trevor Lawrence", position := Position.QB,
    stat_type := "Pass Attempts", projected_value := 35, market_line := 35,
    edge := 0, recommendation := BetType.UNDER, confidence := 35 }

/-- Trailing-scenario RB projection: projected rush yards far above the line,
edge 900. -/
def trailingRB : Projection :=
  { player_name := "Travis Etienne", position := Position.RB,
    stat_type := "Rush Yards", projected_value := 200, market_line := 20,
    edge := 900, recommendation := BetType.OVER, confidence := 95 }

/-- The parlay the trailing scenario produces: the RB under leg carries edge
−900, driving the combined confidence to −850. -/
def trailingParlayOut : CorrelatedParlay :=
  { game_script := GameScript.TRAILING,
    legs := [{ player_name := "Trevor Lawrence", stat_type := "Pass Attempts",
               line := 35, direction := BetType.OVER, edge := 0 },
             { player_name := "Travis Etienne", stat_type := "Rush Yards",
               line := 20, direction := BetType.UNDER, edge := -900 }],
    combined_confidence := -850,
    correlation_strength := "Moderate" }

lemma buildTrailingParlay_eval :
    buildTrailingParlay [trailingQB, trailingRB] = some trailingParlayOut := by
  have hconf : calculateParlayConfidence
      [{ player_name := "Trevor Lawrence", stat_type := "Pass Attempts",
         line := 35, direction := BetType.OVER, edge := 0 },
       { player_name := "Travis Etienne", stat_type := "Rush Yards",
         line := 20, direction := BetType.UNDER, edge := -900 }] = -850 := by
    rw [calculateParlayConfidence, if_neg (by simp)]
    norm_num [List.countP_cons, min_def]
  simp [buildTrailingParlay, findProjection, findBestProjection, overLeg,
    underLeg, List.find?, List.filter, trailingQB, trailingRB,
    trailingParlayOut, hconf]

lemma findCorrelatedParlays_trailing_eval :
    findCorrelatedParlays trailingCtx [trailingQB, trailingRB] =
      [trailingParlayOut] := by
  have hgs : determineGameScript trailingCtx = GameScript.TRAILING := by
    norm_num [determineGameScript, trailingCtx, Config.TRAILING_SCRIPT_SPREAD]
  have hlt : ¬((47 : ℚ) < trailingCtx.total) := by
    norm_num [trailingCtx]
  simp [findCorrelatedParlays, hgs, hlt, buildTrailingParlay_eval]

/-- C4 counterexample: a projection list whose assembled trailing parlay has
combined confidence −850, far below 0. -/
theorem parlayConfidence_negative :
    ∃ parlay ∈ findCorrelatedParlays trailingCtx [trailingQB, trailingRB],
      parlay.combined_confidence < 0 := by
  rw [findCorrelatedParlays_trailing_eval]
  exact ⟨trailingParlayOut, by simp, by norm_num [trailingParlayOut]⟩

/-- C4 amended: combined parlay confidence is capped at 95 (hence never above
100) and is non-negative whenever the average leg edge is at least −25, but it
can fall below 0 for sufficiently negative average leg edge; every per-stat
projection confidence lies in `[0, 100]`. -/
theorem calculateParlayConfidence_bounds :
    (∀ legs : List ParlayLeg, calculateParlayConfidence legs ≤ 95)
    ∧ (∀ legs : List ParlayLeg, legs ≠ [] →
        -25 ≤ (legs.map fun leg => leg.edge).sum / (legs.length : ℚ) →
        0 ≤ calculateParlayConfidence legs)
    ∧ (∀ e : ℚ, 0 ≤ e →
        0 ≤ calculateConfidence e ∧ calculateConfidence e ≤ 100) := by
  refine ⟨fun legs => ?_, fun legs hne havg => ?_, fun e he => ?_⟩
  · unfold calculateParlayConfidence
    split_ifs with h
    · norm_num
    · exact min_le_right _ _
  · unfold calculateParlayConfidence
    rw [if_neg hne]
    refine le_min ?_ (by norm_num)
    have hb : (0 : ℚ) ≤ ((legs.countP fun leg => decide (0 < leg.edge)) * 5 : ℕ) :=
      Nat.cast_nonneg _
    have hmin : (-50 : ℚ) ≤
        min ((legs.map fun leg => leg.edge).sum / (legs.length : ℚ) * 2) 30 :=
      le_min (by linarith) (by norm_num)
    linarith
  · have h1 := calculateConfidence_lower he
    have h2 := calculateConfidence_upper he
    constructor <;> linarith

/-- Witness for C4 amended at a single positive-edge leg. -/
theorem calculateParlayConfidence_bounds_witness :
    ([({ player_name := "Trevor Lawrence", stat_type := "Pass Attempts",
         line := 30, direction := BetType.OVER, edge := 10 } : ParlayLeg)] ≠
        ([] : List ParlayLeg)) ∧
      0 ≤ calculateParlayConfidence
        [{ player_name := "Trevor Lawrence", stat_type := "Pass Attempts",
           line := 30, direction := BetType.OVER, edge := 10 }] :=
  ⟨by simp, calculateParlayConfidence_bounds.2.1 _ (by simp) (by norm_num)⟩

/-- Explosive-scenario game context: spread 0, total 52. -/
def explosiveCtx : GameContext :=
  { team := "Bills", opponent := "Dolphins", spread := 0, total := 52,
    implied_team_total := 26, opponent_rank := 25 }

/-- Explosive-scenario QB projection: passing yards over the line. -/
def explosiveQB : Projection :=
  { player_name := "Josh Allen", position := Position.QB,
    stat_type := "Passing Yards", projected_value := 280, market_line := 260,
    edge := 769/100, recommendation := BetType.OVER, confidence := 695/10 }

/-- Explosive-scenario WR projection: receiving yards over the line. -/
def explosiveWR : Projection :=
  { player_name := "Stefon Diggs", position := Position.WR,
    stat_type := "Rec Yards", projected_value := 90, market_line := 80,
    edge := 25/2, recommendation := BetType.OVER, confidence := 863/10 }

/-- The two-leg parlay the explosive scenario produces, labelled Strong. -/
def explosiveParlayOut : CorrelatedParlay :=
  { game_script := GameScript.EXPLOSIVE,
    legs := [{ player_name := "Josh Allen", stat_type := "Passing Yards",
               line := 260, direction := BetType.OVER, edge := 769/100 },
             { player_name := "Stefon Diggs", stat_type := "Rec Yards",
               line := 80, direction := BetType.OVER, edge := 25/2 }],
    combined_confidence := 8019/100,
    correlation_strength := "Strong" }

lemma buildExplosiveParlay_eval :
    buildExplosiveParlay [explosiveQB, explosiveWR] = some explosiveParlayOut := by
  have hconf : calculateParlayConfidence
      [{ player_name := "Josh Allen", stat_type := "Passing Yards",
         line := 260, direction := BetType.OVER, edge := 769/100 },
       { player_name := "Stefon Diggs", stat_type := "Rec Yards",
         line := 80, direction := BetType.OVER, edge := 25/2 }] = 8019/100 := by
    rw [calculateParlayConfidence, if_neg (by simp)]
    norm_num [List.countP_cons, min_def]
  simp [buildExplosiveParlay, findProjection, findBestProjection, overLeg,
    List.find?, List.filter, explosiveQB, explosiveWR, maxByAbsEdge,
    explosiveParlayOut, hconf]

lemma findCorrelatedParlays_explosive_eval :
    findCorrelatedParlays explosiveCtx [explosiveQB, explosiveWR] =
      [explosiveParlayOut] := by
  have hgs : determineGameScript explosiveCtx = GameScript.EXPLOSIVE := by
    norm_num [determineGameScript, explosiveCtx, Config.TRAILING_SCRIPT_SPREAD,
      Config.LEADING_SCRIPT_SPREAD, Config.EXPLOSIVE_TOTAL_THRESHOLD]
  simp [findCorrelatedParlays, hgs, buildExplosiveParlay_eval]

/-- C5 counterexample: the explosive scenario emits a two-leg parlay labelled
"Strong", not "Moderate". -/
theorem explosiveParlay_two_legs_strong :
    ∃ parlay ∈ findCorrelatedParlays explosiveCtx [explosiveQB, explosiveWR],
      parlay.legs.length = 2 ∧ parlay.correlation_strength = "Strong" := by
  rw [findCorrelatedParlays_explosive_eval]
  exact ⟨explosiveParlayOut, by simp, by simp [explosiveParlayOut], rfl⟩

lemma option_toList_length_le {α : Type} (o : Option α) : o.toList.length ≤ 1 := by
  cases o <;> simp

lemma buildTrailingParlay_strength (projs : List Projection)
    (c : CorrelatedParlay) (h : buildTrailingParlay projs = some c) :
    c.correlation_strength = "Strong" ↔ c.legs.length = 3 := by
  simp only [buildTrailingParlay] at h
  split_ifs at h with hlen h3
  · rw [Option.some.injEq] at h
    subst h
    exact ⟨fun _ => h3, fun _ => rfl⟩
  · rw [Option.some.injEq] at h
    subst h
    exact ⟨fun hms => absurd hms (by simp), fun hl => absurd hl h3⟩

lemma buildLeadingParlay_strength (projs : List Projection)
    (c : CorrelatedParlay) (h : buildLeadingParlay projs = some c) :
    c.correlation_strength = "Strong" ↔ c.legs.length = 3 := by
  simp only [buildLeadingParlay] at h
  split_ifs at h with hlen h3
  · rw [Option.some.injEq] at h
    subst h
    exact ⟨fun _ => h3, fun _ => rfl⟩
  · rw [Option.some.injEq] at h
    subst h
    exact ⟨fun hms => absurd hms (by simp), fun hl => absurd hl h3⟩

lemma buildExplosiveParlay_strength (projs : List Projection)
    (c : CorrelatedParlay) (h : buildExplosiveParlay projs = some c) :
    c.correlation_strength = "Strong" ∧ c.legs.length = 2 := by
  simp only [buildExplosiveParlay] at h
  split_ifs at h with hlen
  · rw [Option.some.injEq] at h
    subst h
    refine ⟨rfl, ?_⟩
    have hA := option_toList_length_le
      ((findProjection projs Position.QB "Passing Yards").map
        fun qb => overLeg qb "Passing Yards")
    have hB := option_toList_length_le
      ((findBestProjection projs [Position.WR, Position.TE] "Rec Yards"
        BetType.OVER).map fun wr => overLeg wr "Rec Yards")
    simp only [List.length_append] at hlen ⊢
    omega

/-- C5 amended: trailing and leading parlays are labelled "Strong" exactly
when they have 3 legs (else "Moderate"), while every emitted explosive parlay
has exactly 2 legs and is nevertheless labelled "Strong". -/
theorem correlationStrength_spec (projs : List Projection) :
    (∀ c, buildTrailingParlay projs = some c →
      (c.correlation_strength = "Strong" ↔ c.legs.length = 3))
    ∧ (∀ c, buildLeadingParlay projs = some c →
      (c.correlation_strength = "Strong" ↔ c.legs.length = 3))
    ∧ (∀ c, buildExplosiveParlay projs = some c →
      c.correlation_strength = "Strong" ∧ c.legs.length = 2) :=
  ⟨fun c h => buildTrailingParlay_strength projs c h,
   fun c h => buildLeadingParlay_strength projs c h,
   fun c h => buildExplosiveParlay_strength projs c h⟩

/-- Witness for C5 amended at the explosive scenario. -/
theorem correlationStrength_spec_witness :
    buildExplosiveParlay [explosiveQB, explosiveWR] = some explosiveParlayOut ∧
      explosiveParlayOut.correlation_strength = "Strong" ∧
      explosiveParlayOut.legs.length = 2 :=
  ⟨buildExplosiveParlay_eval,
   (correlationStrength_spec [explosiveQB, explosiveWR]).2.2 explosiveParlayOut
     buildExplosiveParlay_eval⟩

/-- Witness for C7 at p = 0.6, d = 1.91, quarter Kelly. -/
theorem calculateKellyFraction_spec_witness :
    (0 : ℚ) < 3/5 ∧ (3/5 : ℚ) < 1 ∧ (1 : ℚ) < 191/100 ∧
      calculateKellyFraction (3/5) (191/100) (1/4) =
        some (min ((((191/100 - 1) * (3/5) - (1 - 3/5)) / (191/100 - 1)) * (1/4))
          (1/5)) :=
  ⟨by norm_num, by norm_num, by norm_num,
    (calculateKellyFraction_spec.1 (3/5) (191/100) (1/4) (by norm_num)
      (by norm_num) (by norm_num)).2 (by norm_num)⟩

lemma zipAll_iff (draw lines : List ℚ) (h : draw.length = lines.length) :
    (((draw.zip lines).all fun vl => decide (vl.2 < vl.1)) = true) ↔
      ∀ j, j < lines.length → lines.getD j 0 < draw.getD j 0 := by
  induction draw generalizing lines with
  | nil =>
    cases lines with
    | nil => simp
    | cons l ls => simp at h
  | cons v vs ih =>
    cases lines with
    | nil => simp at h
    | cons l ls =>
      have hlen : vs.length = ls.length := by simpa using h
      rw [List.zip_cons_cons, List.all_cons, Bool.and_eq_true, decide_eq_true_eq,
        ih ls hlen]
      constructor
      · rintro ⟨h0, hrest⟩ j hj
        cases j with
        | zero => simpa using h0
        | succ k =>
          simp only [List.getD_cons_succ]
          exact hrest k (by simpa using hj)
      · intro hall
        refine ⟨by simpa using hall 0 (by simp), fun k hk => ?_⟩
        have hk1 := hall (k + 1) (by simpa using hk)
        simpa using hk1

lemma range_map_prod (n : ℕ) (f : ℕ → ℚ) :
    ((List.range n).map f).prod = ∏ j ∈ Finset.range n, f j := by
  induction n with
  | zero => simp
  | succ m ih =>
    rw [List.range_succ, List.map_append, List.prod_append, Finset.prod_range_succ,
      ih]
    simp

/-- C8: in `simulate_parlay`, for any simulated sample matrix and line vector,
the reported independent probability is the exact product of the per-leg
marginal over-probabilities from the same sample, the reported true
probability is the fraction of draws in which every leg strictly exceeds its
line, and the reported correlation advantage is their difference. -/
theorem simulateParlay_spec (sims : List (List ℚ)) (lines : List ℚ)
    (h : ∀ draw ∈ sims, draw.length = lines.length) :
    (simulateParlayStats sims lines).independent_probability =
      ∏ j ∈ Finset.range lines.length, marginalOverProb sims lines j
    ∧ (simulateParlayStats sims lines).true_probability =
      (((sims.filter fun draw =>
          decide (∀ j, j < lines.length →
            lines.getD j 0 < draw.getD j 0)).length : ℚ)) / (sims.length : ℚ)
    ∧ (simulateParlayStats sims lines).correlation_advantage =
      (simulateParlayStats sims lines).true_probability -
        (simulateParlayStats sims lines).independent_probability := by
  refine ⟨?_, ?_, rfl⟩
  · show ((List.range lines.length).map
        fun j => ((overCount sims lines j : ℚ)) / (sims.length : ℚ)).prod = _
    rw [range_map_prod]
    refine Finset.prod_congr rfl fun j hj => ?_
    rw [marginalOverProb, overCount, List.countP_eq_length_filter]
  · show (((sims.countP fun draw =>
        (draw.zip lines).all fun vl => decide (vl.2 < vl.1)) : ℚ)) /
          (sims.length : ℚ) = _
    have hpq : ∀ draw ∈ sims,
        ((draw.zip lines).all fun vl => decide (vl.2 < vl.1)) =
          decide (∀ j, j < lines.length → lines.getD j 0 < draw.getD j 0) := by
      intro draw hd
      have hlen := h draw hd
      cases hb : (draw.zip lines).all fun vl => decide (vl.2 < vl.1) with
      | false =>
        rw [eq_comm, decide_eq_false_iff_not]
        intro hall
        exact absurd ((zipAll_iff draw lines hlen).mpr hall) (by simp [hb])
      | true =>
        rw [eq_comm, decide_eq_true_eq]
        exact (zipAll_iff draw lines hlen).mp hb
    rw [List.countP_eq_length_filter, List.filter_congr hpq]

/-- Witness for C8 at a concrete two-draw, one-leg sample. -/
theorem simulateParlay_spec_witness :
    (∀ draw ∈ [[(3 : ℚ)], [1]], draw.length = [(2 : ℚ)].length) ∧
      (simulateParlayStats [[(3 : ℚ)], [1]] [2]).correlation_advantage =
        (simulateParlayStats [[(3 : ℚ)], [1]] [2]).true_probability -
          (simulateParlayStats [[(3 : ℚ)], [1]] [2]).independent_probability :=
  ⟨by simp, (simulateParlay_spec [[(3 : ℚ)], [1]] [2] (by simp)).2.2⟩

/-- Standard normal CDF stand-in under which every evaluation returns 1, as
`scipy.stats.norm.cdf` does (to double precision) at the argument 13.75
arising below. -/
noncomputable def exCdfOne : ℝ → ℝ := fun _ => 1

/-- Correlation-matrix lookup with unit diagonal and off-diagonal 0.99. -/
noncomputable def exCorrFn : String → String → ℝ := fun p q =>
  if p = q then 1 else 99/100

/-- Covariance-matrix lookup, constant 1/2. -/
noncomputable def exCovFn : String → String → ℝ := fun _ _ => 1/2

/-- The pair retained in the concrete run: correlation 0.99, p-value 0,
sample size 30 (the engine's `min_sample_size`), regardless of how many
historical games produced the correlation matrix. -/
noncomputable def exPair : CorrelatedPair :=
  { prop1 := "a", prop2 := "b", correlation := 99/100, covariance := 1/2,
    p_value := 0, sample_size := 30 }

lemma fisherPValue_exCdfOne (r : ℝ) (n : ℕ) : fisherPValue exCdfOne r n = 0 := by
  simp [fisherPValue, exCdfOne]

lemma significantPairTest_eval :
    significantPairTest exCdfOne 30 (1/20) exCorrFn exCovFn (3/10) ("a", "b") =
      some exPair := by
  have hcorr : exCorrFn "a" "b" = 99/100 := by simp [exCorrFn]
  have h1 : ¬(|exCorrFn "a" "b"| < (3/10 : ℝ)) := by
    rw [hcorr, abs_of_pos (by norm_num : (0 : ℝ) < 99/100)]
    norm_num
  have h2 : fisherPValue exCdfOne (exCorrFn "a" "b") 30 < 1/20 := by
    rw [fisherPValue_exCdfOne]
    norm_num
  simp only [significantPairTest]
  rw [if_neg h1, if_pos h2, Option.some.injEq]
  rw [fisherPValue_exCdfOne]
  simp [exPair, exCorrFn, exCovFn]

lemma exFindSignificantPairs_eval :
    findSignificantPairs exCdfOne 30 (1/20) exCorrFn exCovFn ["a", "b"] (3/10) =
      [exPair] := by
  rw [findSignificantPairs,
    show pairsOf ["a", "b"] = [("a", "b")] from rfl]
  simp only [List.filterMap_cons, significantPairTest_eval, List.filterMap_nil]
  simp

/-- C6 counterexample: from a correlation matrix computed over 50 historical
games (off-diagonal correlation 0.99), the concrete run retains a pair whose
reported sample size is the engine's `min_sample_size` of 30, not the 50
supplied games — the game count never enters `find_significant_pairs`. -/
theorem significantPair_sample_size_not_games :
    ∃ pr ∈ findSignificantPairs exCdfOne 30 (1/20) exCorrFn exCovFn
        ["a", "b"] (3/10), pr.sample_size = 30 ∧ pr.sample_size ≠ 50 := by
  rw [exFindSignificantPairs_eval]
  exact ⟨exPair, by simp, rfl, by norm_num [exPair]⟩

/-- C6 amended: every retained pair has absolute correlation at or above the
threshold and Fisher p-value (computed with `n = min_sample_size`, the
constructor parameter, default 30 — not the number of supplied historical
games) below the significance level, its reported sample size equals
`min_sample_size`, and the result is sorted by absolute correlation
descending. -/
theorem findSignificantPairs_spec (cdf : ℝ → ℝ) (mss : ℕ) (sl : ℝ)
    (corr cov : String → String → ℝ) (props : List String) (minCorr : ℝ) :
    (∀ pr ∈ findSignificantPairs cdf mss sl corr cov props minCorr,
      minCorr ≤ |pr.correlation| ∧ pr.p_value < sl ∧
      pr.p_value = fisherPValue cdf pr.correlation mss ∧ pr.sample_size = mss)
    ∧ List.Sorted (fun a b : CorrelatedPair => |b.correlation| ≤ |a.correlation|)
      (findSignificantPairs cdf mss sl corr cov props minCorr) := by
  constructor
  · intro pr hpr
    rw [findSignificantPairs, List.mem_mergeSort] at hpr
    obtain ⟨pq, hpq, hf⟩ := List.mem_filterMap.mp hpr
    simp only [significantPairTest] at hf
    split_ifs at hf with hc hp
    · rw [Option.some.injEq] at hf
      subst hf
      exact ⟨not_lt.mp hc, hp, rfl, rfl⟩
  · rw [findSignificantPairs]
    have hs := @List.sorted_mergeSort CorrelatedPair
      (fun a b => decide (|b.correlation| ≤ |a.correlation|))
      (fun a b c hab hbc => by
        simp only [decide_eq_true_eq] at hab hbc ⊢
        exact le_trans hbc hab)
      (fun a b => by
        rcases le_total |b.correlation| |a.correlation| with hab | hab <;>
          simp [hab])
      ((pairsOf props).filterMap
        (significantPairTest cdf mss sl corr cov minCorr))
    exact hs.imp fun hab => of_decide_eq_true hab

/-- Witness for C6 amended at the concrete run. -/
theorem findSignificantPairs_spec_witness :
    exPair ∈ findSignificantPairs exCdfOne 30 (1/20) exCorrFn exCovFn
        ["a", "b"] (3/10) ∧ exPair.sample_size = 30 :=
  ⟨by rw [exFindSignificantPairs_eval]; simp,
   ((findSignificantPairs_spec exCdfOne 30 (1/20) exCorrFn exCovFn
      ["a", "b"] (3/10)).1 exPair
      (by rw [exFindSignificantPairs_eval]; simp)).2.2.2⟩
